import Mathlib

/-!
Verification of the Influent Generator API.

The service has two source variants: `influent_API.py` (which clamps the
batch size) and `influent_api.py` (which validates the batch size and
rejects out-of-range input with a 422 client error).  Both share the same
range table, sampler and health-check route.  We embed both variants.

Randomness is modelled by passing the result of each uniform draw
explicitly: `random.uniform(low, high)` becomes a parameter `u : ℚ`
(one per field for a single sample, indexed by call number for a batch).
Python's `round` is round-half-to-even; we embed it as `rhe` on ℚ.
-/

/-- Round-half-to-even on ℚ, the behaviour of Python's `round(value)`. -/
def rhe (x : ℚ) : ℤ :=
  if x - (⌊x⌋ : ℚ) < 1/2 then ⌊x⌋
  else if 1/2 < x - (⌊x⌋ : ℚ) then ⌊x⌋ + 1
  else if ⌊x⌋ % 2 = 0 then ⌊x⌋ else ⌊x⌋ + 1

/-- Python's `round(value, decimals)`: round-half-to-even at `decimals`
decimal places. -/
def round_to (decimals : ℕ) (x : ℚ) : ℚ :=
  (rhe (x * 10 ^ decimals) : ℚ) / 10 ^ decimals

/-- The inner helper `rand(low, high, decimals)` of `generate_influent`:
`value = random.uniform(low, high)` is the draw `u`; if `decimals == 0`
it returns `round(value)`, otherwise `round(value, decimals)`. -/
def rand (low high : ℚ) (decimals : ℕ) (u : ℚ) : ℚ :=
  if decimals = 0 then (rhe u : ℚ) else round_to decimals u

/-- The eight field names of the range table `INFLUENT_RANGES`. -/
inductive FieldName where
  | flow_m3_h
  | temp_C
  | pH
  | TSS_in_mgL
  | BOD_in_mgL
  | COD_in_mgL
  | oil_grease_in_mgL
  | turbidity_in_NTU
  deriving DecidableEq, Fintype

/-- The static range table (identical in both source variants). -/
def INFLUENT_RANGES : FieldName → ℚ × ℚ
  | FieldName.flow_m3_h => (20, 500)
  | FieldName.temp_C => (10, 35)
  | FieldName.pH => (6.0, 8.5)
  | FieldName.TSS_in_mgL => (80, 800)
  | FieldName.BOD_in_mgL => (100, 500)
  | FieldName.COD_in_mgL => (200, 1000)
  | FieldName.oil_grease_in_mgL => (1, 50)
  | FieldName.turbidity_in_NTU => (20, 500)

/-- The decimal count passed to `rand` at each call site of
`generate_influent`: `decimals=0` for `flow_m3_h`, the default `1`
for every other field. -/
def decimalsFor : FieldName → ℕ
  | FieldName.flow_m3_h => 0
  | _ => 1

/-- The `Influent` pydantic model: eight numeric fields. -/
structure Influent where
  flow_m3_h : ℚ
  temp_C : ℚ
  pH : ℚ
  TSS_in_mgL : ℚ
  BOD_in_mgL : ℚ
  COD_in_mgL : ℚ
  oil_grease_in_mgL : ℚ
  turbidity_in_NTU : ℚ
  deriving DecidableEq

/-- Project a field of an `Influent` record by field name. -/
def fieldValue (inf : Influent) : FieldName → ℚ
  | FieldName.flow_m3_h => inf.flow_m3_h
  | FieldName.temp_C => inf.temp_C
  | FieldName.pH => inf.pH
  | FieldName.TSS_in_mgL => inf.TSS_in_mgL
  | FieldName.BOD_in_mgL => inf.BOD_in_mgL
  | FieldName.COD_in_mgL => inf.COD_in_mgL
  | FieldName.oil_grease_in_mgL => inf.oil_grease_in_mgL
  | FieldName.turbidity_in_NTU => inf.turbidity_in_NTU

/-- `generate_influent`, identical in both variants: one `rand` call per
field, with the range-table bounds and the per-field decimal count.
`draw f` is the value `random.uniform(low, high)` returned for field `f`. -/
def generate_influent (draw : FieldName → ℚ) : Influent :=
  { flow_m3_h := rand (INFLUENT_RANGES FieldName.flow_m3_h).1
      (INFLUENT_RANGES FieldName.flow_m3_h).2 0 (draw FieldName.flow_m3_h)
  , temp_C := rand (INFLUENT_RANGES FieldName.temp_C).1
      (INFLUENT_RANGES FieldName.temp_C).2 1 (draw FieldName.temp_C)
  , pH := rand (INFLUENT_RANGES FieldName.pH).1
      (INFLUENT_RANGES FieldName.pH).2 1 (draw FieldName.pH)
  , TSS_in_mgL := rand (INFLUENT_RANGES FieldName.TSS_in_mgL).1
      (INFLUENT_RANGES FieldName.TSS_in_mgL).2 1 (draw FieldName.TSS_in_mgL)
  , BOD_in_mgL := rand (INFLUENT_RANGES FieldName.BOD_in_mgL).1
      (INFLUENT_RANGES FieldName.BOD_in_mgL).2 1 (draw FieldName.BOD_in_mgL)
  , COD_in_mgL := rand (INFLUENT_RANGES FieldName.COD_in_mgL).1
      (INFLUENT_RANGES FieldName.COD_in_mgL).2 1 (draw FieldName.COD_in_mgL)
  , oil_grease_in_mgL := rand (INFLUENT_RANGES FieldName.oil_grease_in_mgL).1
      (INFLUENT_RANGES FieldName.oil_grease_in_mgL).2 1 (draw FieldName.oil_grease_in_mgL)
  , turbidity_in_NTU := rand (INFLUENT_RANGES FieldName.turbidity_in_NTU).1
      (INFLUENT_RANGES FieldName.turbidity_in_NTU).2 1 (draw FieldName.turbidity_in_NTU) }

/-- The `InfluentBatch` pydantic model. -/
structure InfluentBatch where
  count : ℤ
  influents : List Influent
  deriving DecidableEq

/-- `get_batch_influent` from `influent_API.py` (the clamping variant):
`n = max(1, min(n, 100))`, then `n` samples, then
`InfluentBatch(count=n, influents=samples)`.  `draws i` supplies the
uniform draws for the `i`-th call to `generate_influent`. -/
def get_batch_influent_API (n : ℤ) (draws : ℕ → FieldName → ℚ) : InfluentBatch :=
  { count := max 1 (min n 100)
  , influents :=
      (List.range (max 1 (min n 100)).toNat).map fun i => generate_influent (draws i) }

/-- `get_batch_influent` from `influent_api.py` (the validating variant):
`n` is declared `Query(default=5, ge=1, le=100)`, so an out-of-range `n`
is rejected by FastAPI with a 422 client error before the handler runs;
otherwise the handler builds the batch exactly as the clamping variant
does for in-range `n`. -/
def get_batch_influent_api (n : ℤ) (draws : ℕ → FieldName → ℚ) : Except ℕ InfluentBatch :=
  if 1 ≤ n ∧ n ≤ 100 then
    Except.ok
      { count := n
      , influents := (List.range n.toNat).map fun i => generate_influent (draws i) }
  else Except.error 422

/-- `GET /influent/batch` with no query parameter: the declared default
`n = 5` is used (clamping variant). -/
def get_batch_influent_API_default (draws : ℕ → FieldName → ℚ) : InfluentBatch :=
  get_batch_influent_API 5 draws

/-- `GET /influent/batch` with no query parameter: the declared default
`n = 5` is used (validating variant). -/
def get_batch_influent_api_default (draws : ℕ → FieldName → ℚ) : Except ℕ InfluentBatch :=
  get_batch_influent_api 5 draws

/-- `GET /influent`: one call to `generate_influent`. -/
def get_single_influent (draw : FieldName → ℚ) : Influent :=
  generate_influent draw

/-- An HTTP response whose body is a flat JSON object of strings. -/
structure JsonResponse where
  status_code : ℕ
  body : List (String × String)
  deriving DecidableEq

/-- `GET /` (`root`, identical in both variants): the handler returns the
fixed dict; FastAPI serves it with the default status 200. -/
def root_response : JsonResponse :=
  { status_code := 200
  , body := [("status", "ok"), ("message", "Influent Generator API is running.")] }

/-- `HEAD /` (`head_root` in `influent_api.py`): declared
`status_code=200`, returns no body. -/
def head_root_response : JsonResponse :=
  { status_code := 200, body := [] }

/-- A concrete draw function used by witnesses: every field draws `0`. -/
def zeroDraw : FieldName → ℚ := fun _ => 0

/-- Concrete batch draws used by witnesses: every call draws `0`. -/
def zeroDraws : ℕ → FieldName → ℚ := fun _ => zeroDraw

/-- A concrete in-range draw function: each field draws its lower bound. -/
def lowDraw : FieldName → ℚ := fun f => (INFLUENT_RANGES f).1

/-! ## Rounding lemmas -/

/-- Round-half-to-even moves a value by at most half a unit. -/
theorem abs_rhe_sub_le (x : ℚ) : |(rhe x : ℚ) - x| ≤ 1/2 := by
  have h0 : ((⌊x⌋ : ℤ) : ℚ) ≤ x := Int.floor_le x
  have h1 : x < ⌊x⌋ + 1 := Int.lt_floor_add_one x
  unfold rhe
  split_ifs with ha hb hc
  · rw [abs_le]
    constructor <;> linarith
  · push_cast
    rw [abs_le]
    constructor <;> linarith
  · push_neg at ha hb
    rw [abs_le]
    constructor <;> linarith
  · push_neg at ha hb
    push_cast
    rw [abs_le]
    constructor <;> linarith

/-- Rounding at `d` decimal places moves a value by at most half a unit
at that precision. -/
theorem abs_round_to_sub_le (d : ℕ) (x : ℚ) :
    |round_to d x - x| ≤ 1 / (2 * 10 ^ d) := by
  have hp : (0:ℚ) < 10 ^ d := by positivity
  have h := abs_rhe_sub_le (x * 10 ^ d)
  have key : round_to d x - x = ((rhe (x * 10 ^ d) : ℚ) - x * 10 ^ d) / 10 ^ d := by
    unfold round_to
    field_simp
    ring
  rw [key, abs_div, abs_of_pos hp, div_le_div_iff₀ hp (by positivity)]
  calc |(rhe (x * 10 ^ d) : ℚ) - x * 10 ^ d| * (2 * 10 ^ d)
      ≤ (1/2) * (2 * 10 ^ d) := by
        exact mul_le_mul_of_nonneg_right h (by positivity)
    _ = 1 * 10 ^ d := by ring

/-- `rand` moves the drawn value by at most half a unit at its decimal
precision. -/
theorem abs_rand_sub_le (low high : ℚ) (d : ℕ) (u : ℚ) :
    |rand low high d u - u| ≤ 1 / (2 * 10 ^ d) := by
  unfold rand
  split_ifs with h
  · subst h
    simpa using abs_rhe_sub_le u
  · exact abs_round_to_sub_le d u

/-- If the draw is within `[low, high]`, the `rand` result is within
`[low, high]` widened by half a unit at the decimal precision. -/
theorem rand_mem_tolerance (low high : ℚ) (d : ℕ) (u : ℚ)
    (h1 : low ≤ u) (h2 : u ≤ high) :
    low - 1 / (2 * 10 ^ d) ≤ rand low high d u ∧
      rand low high d u ≤ high + 1 / (2 * 10 ^ d) := by
  have h := abs_rand_sub_le low high d u
  rw [abs_le] at h
  constructor <;> linarith [h.1, h.2]

/-! ## Claim theorems -/

/-- C1: For every sample returned by `generate_influent` (hence by
`GET /influent` and every element of a `GET /influent/batch` response),
each of the eight fields lies within its configured `[low, high]`
interval from the range table, to within half a unit at that field's
decimal precision (`decimals = 0` for `flow_m3_h`, `1` for all other
fields), given that the underlying uniform draw returns a value in the
closed interval `[low, high]`. -/
theorem generate_influent_fields_within_bounds (draw : FieldName → ℚ)
    (h : ∀ f : FieldName,
      (INFLUENT_RANGES f).1 ≤ draw f ∧ draw f ≤ (INFLUENT_RANGES f).2) :
    ∀ f : FieldName,
      (INFLUENT_RANGES f).1 - 1 / (2 * 10 ^ decimalsFor f)
          ≤ fieldValue (generate_influent draw) f ∧
        fieldValue (generate_influent draw) f
          ≤ (INFLUENT_RANGES f).2 + 1 / (2 * 10 ^ decimalsFor f) := by
  intro f
  have hf := h f
  cases f <;>
    exact rand_mem_tolerance _ _ _ _ hf.1 hf.2

/-- Witness for C1 at the concrete draw function `lowDraw`. -/
theorem generate_influent_fields_within_bounds_witness :
    (∀ f : FieldName,
      (INFLUENT_RANGES f).1 ≤ lowDraw f ∧ lowDraw f ≤ (INFLUENT_RANGES f).2) ∧
    ((INFLUENT_RANGES FieldName.pH).1 - 1 / (2 * 10 ^ decimalsFor FieldName.pH)
        ≤ fieldValue (generate_influent lowDraw) FieldName.pH ∧
      fieldValue (generate_influent lowDraw) FieldName.pH
        ≤ (INFLUENT_RANGES FieldName.pH).2 + 1 / (2 * 10 ^ decimalsFor FieldName.pH)) :=
  ⟨by intro f; cases f <;> constructor <;> norm_num [lowDraw, INFLUENT_RANGES],
   generate_influent_fields_within_bounds lowDraw
     (by intro f; cases f <;> constructor <;> norm_num [lowDraw, INFLUENT_RANGES])
     FieldName.pH⟩

/-- C6: For every generated sample, the `flow_m3_h` field is a whole
number: it equals the draw rounded to the nearest integer
(`decimals = 0`, ties to even), so its fractional part is zero. -/
theorem flow_m3_h_is_whole (draw : FieldName → ℚ) :
    (generate_influent draw).flow_m3_h = (rhe (draw FieldName.flow_m3_h) : ℚ) ∧
    ∃ z : ℤ, (generate_influent draw).flow_m3_h = (z : ℚ) :=
  ⟨rfl, ⟨rhe (draw FieldName.flow_m3_h), rfl⟩⟩

/-- C7: `GET /` always returns status 200 with exactly the fixed payload
`{"status": "ok", "message": "Influent Generator API is running."}`;
the handler takes no input and reads no state. -/
theorem root_fixed_payload :
    root_response.status_code = 200 ∧
    root_response.body =
      [("status", "ok"), ("message", "Influent Generator API is running.")] :=
  ⟨rfl, rfl⟩

/-- C8: A `HEAD` request to `/` returns status 200 with an empty body,
the same status code as `GET /` (served by `head_root` in
`influent_api.py`). -/
theorem head_root_ok :
    head_root_response.status_code = 200 ∧
    head_root_response.body = [] ∧
    head_root_response.status_code = root_response.status_code :=
  ⟨rfl, rfl, rfl⟩

/-- C9: `generate_influent` is total and cannot fail: for every state of
the random source it returns an `Influent` record, and the result depends
on nothing but the drawn values — no other state is read or written. -/
theorem generate_influent_total_and_pure (d1 d2 : FieldName → ℚ)
    (h : ∀ f, d1 f = d2 f) :
    (∃ inf : Influent, generate_influent d1 = inf) ∧
    generate_influent d1 = generate_influent d2 := by
  have hd : d1 = d2 := funext h
  subst hd
  exact ⟨⟨generate_influent d1, rfl⟩, rfl⟩

/-- Witness for C9 at the concrete draw function `zeroDraw`. -/
theorem generate_influent_total_and_pure_witness :
    (∀ f, zeroDraw f = zeroDraw f) ∧
    ((∃ inf : Influent, generate_influent zeroDraw = inf) ∧
      generate_influent zeroDraw = generate_influent zeroDraw) :=
  ⟨fun _ => rfl, generate_influent_total_and_pure zeroDraw zeroDraw fun _ => rfl⟩

/-- The concrete sample produced when every field draws `0`. -/
def sample0 : Influent := generate_influent zeroDraw

/-- The concrete batch the validating variant returns for `n = 3` with
all-zero draws. -/
def batch3 : InfluentBatch := { count := 3, influents := [sample0, sample0, sample0] }

/-- C2: Every response produced by the batch endpoint satisfies
`count == len(influents)` — unconditionally for the clamping variant of
`get_batch_influent`, and for every batch the validating variant
successfully returns. -/
theorem batch_count_eq_length (n : ℤ) (draws : ℕ → FieldName → ℚ)
    (b : InfluentBatch) (hb : get_batch_influent_api n draws = Except.ok b) :
    (get_batch_influent_API n draws).count
        = ((get_batch_influent_API n draws).influents.length : ℤ) ∧
      b.count = (b.influents.length : ℤ) := by
  constructor
  · simp only [get_batch_influent_API, List.length_map, List.length_range]
    omega
  · unfold get_batch_influent_api at hb
    split_ifs at hb with h
    · simp only [Except.ok.injEq] at hb
      subst hb
      simp only [List.length_map, List.length_range]
      omega

/-- Witness for C2 at `n = 3` with all-zero draws. -/
theorem batch_count_eq_length_witness :
    get_batch_influent_api 3 zeroDraws = Except.ok batch3 ∧
    ((get_batch_influent_API 3 zeroDraws).count
        = ((get_batch_influent_API 3 zeroDraws).influents.length : ℤ) ∧
      batch3.count = (batch3.influents.length : ℤ)) :=
  ⟨by rfl, batch_count_eq_length 3 zeroDraws batch3 (by rfl)⟩

/-- C3: For every integer `n` in `[1, 100]`, `GET /influent/batch?n=<n>`
returns a batch with exactly `n` entries, each produced by an independent
call to `generate_influent` (the `i`-th entry from the `i`-th call's
draws), in both variants. -/
theorem batch_valid_n_exact (n : ℤ) (draws : ℕ → FieldName → ℚ)
    (h1 : 1 ≤ n) (h2 : n ≤ 100) :
    (get_batch_influent_API n draws).count = n ∧
    ((get_batch_influent_API n draws).influents.length : ℤ) = n ∧
    (∀ i : ℕ, (hi : i < (get_batch_influent_API n draws).influents.length) →
      (get_batch_influent_API n draws).influents.get ⟨i, hi⟩
        = generate_influent (draws i)) ∧
    get_batch_influent_api n draws =
      Except.ok
        { count := n
        , influents := (List.range n.toNat).map fun i => generate_influent (draws i) } := by
  have hm : max 1 (min n 100) = n := by omega
  refine ⟨?_, ?_, ?_, ?_⟩
  · simp [get_batch_influent_API, hm]
  · simp only [get_batch_influent_API, List.length_map, List.length_range]
    omega
  · intro i hi
    simp only [get_batch_influent_API] at hi ⊢
    simp [List.get_eq_getElem, List.getElem_map, List.getElem_range]
  · unfold get_batch_influent_api
    rw [if_pos ⟨h1, h2⟩]

/-- Witness for C3 at `n = 10` with all-zero draws. -/
theorem batch_valid_n_exact_witness :
    ((1:ℤ) ≤ 10 ∧ (10:ℤ) ≤ 100) ∧
    ((get_batch_influent_API 10 zeroDraws).count = 10 ∧
      ((get_batch_influent_API 10 zeroDraws).influents.length : ℤ) = 10) :=
  ⟨⟨by norm_num, by norm_num⟩,
   (batch_valid_n_exact 10 zeroDraws (by norm_num) (by norm_num)).1,
   (batch_valid_n_exact 10 zeroDraws (by norm_num) (by norm_num)).2.1⟩

/-- C4: The out-of-range policy is applied uniformly to both bounds in
each variant: the clamping variant resolves `n = 0` to a batch of count 1
and `n = 1000` to a batch of count 100, while the validating variant
rejects both with a 422 client error. -/
theorem batch_out_of_range_policy (draws : ℕ → FieldName → ℚ) :
    (get_batch_influent_API 0 draws).count = 1 ∧
    (get_batch_influent_API 1000 draws).count = 100 ∧
    get_batch_influent_api 0 draws = Except.error 422 ∧
    get_batch_influent_api 1000 draws = Except.error 422 := by
  refine ⟨?_, ?_, ?_, ?_⟩
  · simp [get_batch_influent_API]
  · simp [get_batch_influent_API]
  · unfold get_batch_influent_api
    rw [if_neg (by norm_num)]
  · unfold get_batch_influent_api
    rw [if_neg (by norm_num)]

/-- C5: `GET /influent/batch` with no query parameter uses the default
`n = 5`: the clamping variant returns a batch of count 5 with 5 entries,
and the validating variant successfully returns such a batch. -/
theorem batch_default_count_five (draws : ℕ → FieldName → ℚ) :
    (get_batch_influent_API_default draws).count = 5 ∧
    (get_batch_influent_API_default draws).influents.length = 5 ∧
    ∃ b : InfluentBatch, get_batch_influent_api_default draws = Except.ok b ∧
      b.count = 5 ∧ b.influents.length = 5 := by
  refine ⟨?_, ?_, ?_⟩
  · simp [get_batch_influent_API_default, get_batch_influent_API]
  · simp [get_batch_influent_API_default, get_batch_influent_API]
  · refine ⟨{ count := 5
            , influents := (List.range (5:ℤ).toNat).map fun i => generate_influent (draws i) },
      ?_, rfl, ?_⟩
    · unfold get_batch_influent_api_default get_batch_influent_api
      rw [if_pos (by norm_num)]
    · simp

/-- C10: On every valid `n` in `[1, 100]` and identical draw sequences,
the two variants agree: the validating variant returns exactly the batch
the clamping variant builds, since the clamp `max(1, min(n, 100))` is the
identity on `[1, 100]`. -/
theorem variants_agree_on_valid_n (n : ℤ) (draws : ℕ → FieldName → ℚ)
    (h1 : 1 ≤ n) (h2 : n ≤ 100) :
    get_batch_influent_api n draws = Except.ok (get_batch_influent_API n draws) := by
  have hm : max 1 (min n 100) = n := by omega
  unfold get_batch_influent_api get_batch_influent_API
  rw [if_pos ⟨h1, h2⟩, hm]

/-- Witness for C10 at `n = 10` with all-zero draws. -/
theorem variants_agree_on_valid_n_witness :
    ((1:ℤ) ≤ 10 ∧ (10:ℤ) ≤ 100) ∧
    get_batch_influent_api 10 zeroDraws
      = Except.ok (get_batch_influent_API 10 zeroDraws) :=
  ⟨⟨by norm_num, by norm_num⟩,
   variants_agree_on_valid_n 10 zeroDraws (by norm_num) (by norm_num)⟩
